import Mathlib

/-!
Verification development for the `mvs-carousel` widget (`src/mvs-carousel.js`).

The development shallowly embeds the slide geometry engine (`calculate`),
the motion controller (`move`), the touch-drag resistance computation
(`onTouchStart`'s `onTouchMove` closure) and the `Carousel.Nav` selection
logic as executable Lean functions over exact rational pixel arithmetic.
-/

set_option maxHeartbeats 1000000

namespace Mvs

/-- A child element of the carousel list, as the widget measures it:
`size` is `child.getSize().x`, `offsetLeft`/`offsetWidth` are the DOM
`offsetLeft`/`offsetWidth` used by the `single-flex` path of `move`. -/
structure Child where
  size : ℚ
  offsetLeft : ℚ
  offsetWidth : ℚ
deriving DecidableEq, Repr

/-- The `slide-size` option (and the intermediate value of the local
`slideSize` variable in `calculate`): either a pixel number or a
percentage string; `parseInt` makes the percentage an integer. -/
inductive SlideSize where
  | px (v : ℚ)
  | pct (p : ℤ)
deriving DecidableEq, Repr

/-- The `slide-alignment` option. -/
inductive SlideAlignment where
  | left
  | right
  | center
deriving DecidableEq, Repr

/-- The `slide-ends-alignment` option. -/
inductive EndsAlignment where
  | sticky
  | aligned
deriving DecidableEq, Repr

/-- The `slide-mode` option. -/
inductive SlideMode where
  | multiple
  | single
  | singleFlex
deriving DecidableEq, Repr

/-- JavaScript `mode.contains('single')`: true for `'single'` and
`'single-flex'`, false for `'multiple'`. -/
def SlideMode.hasSingle : SlideMode → Bool
  | .multiple => false
  | .single => true
  | .singleFlex => true

/-- The carousel options that the geometry and motion code reads. -/
structure COptions where
  loop : Bool
  slideSize : Option SlideSize
  slideAlignment : SlideAlignment
  slideEndsAlignment : EndsAlignment
  slideMode : SlideMode
deriving DecidableEq, Repr

/-- The `opts.event` tag passed to `move` (`'timer'` from the periodical,
`'touch'` from the touch handler, absent for manual moves). -/
inductive EventTag where
  | timer
  | touch
deriving DecidableEq, Repr

/-- The options object passed to `move`; only `event` is read by the
modelled logic (`transition` only picks a CSS curve). -/
structure MoveOpts where
  event : Option EventTag
deriving DecidableEq, Repr

/-- JavaScript array indexing `children[i]` with a possibly negative or
out-of-range signed index: `undefined` (`none`) outside `[0, length)`. -/
def jsIndex (l : List Child) (i : ℤ) : Option Child :=
  if 0 ≤ i then l[i.toNat]? else none

/-- The do-while packing loop of `calculate` for `slide-mode = 'multiple'`
(lines 191-196): body first (`slideSize += childSize; childSize =
children[index].getSize().x; index++`), then the guard
`slideSize + childSize <= size && children[index]`.
Returns the final `(slideSize, index)` pair.  The loop advances `index`
by one per iteration and only continues while `index + 1 <
children.length`, so a budget of `children.length - index` iterations is
never exhausted; `packGo` instantiates it. -/
def packGoF (size : ℚ) (children : List Child) :
    ℕ → ℚ → ℚ → ℕ → ℚ × ℕ
  | fuel, slideSize, childSize, index =>
    let slideSize' := slideSize + childSize
    let childSize' := match children[index]? with
      | some c => c.size
      | none => 0
    let index' := index + 1
    match fuel with
    | 0 => (slideSize', index')
    | fuel' + 1 =>
      if slideSize' + childSize' ≤ size ∧ index' < children.length then
        packGoF size children fuel' slideSize' childSize' index'
      else
        (slideSize', index')

/-- The packing loop with its (sufficient) iteration budget. -/
def packGo (size : ℚ) (children : List Child) (slideSize childSize : ℚ)
    (index : ℕ) : ℚ × ℕ :=
  packGoF size children (children.length - index) slideSize childSize index

/-- The layout computed by `calculate`: the fields stored into the mock
model plus the local `slideSize` (which the claims reference). -/
structure Layout where
  stageSize : ℚ
  totalSize : ℚ
  slideSize : ℚ
  slideOffsetLeft : ℚ
  slideOffsetRight : ℚ
  slides : ℤ
deriving DecidableEq, Repr

/-- Lines 177-204 of `calculate`: the raw `slideSize` local before
percentage resolution.  With `slide-size = null` and no children it is
the string `'100%'`; in `single` mode the first child's width; otherwise
the packing loop's sum, replaced by `'100%'` when the loop consumed
every child (`!children[index]`) yet packed less than the total size.
A configured `slide-size` is taken as-is, except that the falsy pixel
value `0` falls back to the stage width (`self.options['slide-size'] ||
size`). -/
def calcRawSlideSize (opts : COptions) (size totalSize : ℚ)
    (children : List Child) : SlideSize :=
  match opts.slideSize with
  | none =>
    match children with
    | [] => .pct 100
    | c0 :: _ =>
      if opts.slideMode = .single then
        .px c0.size
      else
        let r := packGo size children 0 0 0
        if children.length ≤ r.2 ∧ r.1 < totalSize then .pct 100
        else .px r.1
  | some (.px v) => if v = 0 then .px size else .px v
  | some (.pct p) => .pct p

/-- Lines 206-207 of `calculate`: percentage slide sizes resolve against
the stage width (`size * (parseInt(slideSize, 10) / 100)`). -/
def resolveSlideSize (size : ℚ) : SlideSize → ℚ
  | .px v => v
  | .pct p => size * ((p : ℚ) / 100)

/-- The effective slide width computed by `calculate`. -/
def calcSlideSize (opts : COptions) (size totalSize : ℚ)
    (children : List Child) : ℚ :=
  resolveSlideSize size (calcRawSlideSize opts size totalSize children)

/-- Lines 218-220 of `calculate`: the slide count is the child count
when `slide-size` is null and the mode contains `'single'`, otherwise
`Math.ceil(totalSize / slideSize)`; a zero slide size or a zero count is
forced to one slide. -/
def calcSlides (opts : COptions) (size totalSize : ℚ)
    (children : List Child) : ℤ :=
  let slideSize := calcSlideSize opts size totalSize children
  let slides0 : ℤ :=
    if opts.slideSize = none ∧ opts.slideMode.hasSingle = true then
      (children.length : ℤ)
    else
      Int.ceil (totalSize / slideSize)
  if slideSize = 0 ∨ slides0 = 0 then 1 else slides0

/-- The geometry engine `calculate` (lines 171-236).  `size` is the
measured stage width `self.element.getSize().x` and `totalSize` the
measured scroll width `self.getTotalSize()`; both are environment
measurements in the source and hence parameters here. -/
def calculate (opts : COptions) (size totalSize : ℚ)
    (children : List Child) : Layout :=
  let slideSize : ℚ := calcSlideSize opts size totalSize children
  let base := (size - slideSize) / 2
  let slideOffsetLeft : ℚ :=
    match opts.slideAlignment with
    | .left => 0
    | .right => base * 2
    | .center => base
  let slideOffsetRight : ℚ :=
    match opts.slideAlignment with
    | .left => base * 2
    | .right => 0
    | .center => base
  ⟨size, totalSize, slideSize, slideOffsetLeft, slideOffsetRight,
    calcSlides opts size totalSize children⟩

/-- The mutable state of a carousel instance that the motion controller
reads and writes: the options, the measured children, the layout fields
stored in the mock model by `calculate`, the `current-slide` model key,
the `_moving` in-flight flag, the recorded `currentOffset`, and the
`translateX` value last written onto the children's style
(`none` when no transform has been set yet). -/
structure CState where
  opts : COptions
  children : List Child
  stageSize : ℚ
  totalSize : ℚ
  slideOffsetLeft : ℚ
  slideOffsetRight : ℚ
  slides : ℤ
  currentSlide : ℤ
  moving : Bool
  currentOffset : ℚ
  styleOffset : Option ℚ
deriving DecidableEq, Repr

/-- Builds the carousel state after `calculate` stores a layout into the
model, keeping the remaining fields. -/
def CState.withLayout (st : CState) (l : Layout) : CState :=
  { st with
    stageSize := l.stageSize
    totalSize := l.totalSize
    slideOffsetLeft := l.slideOffsetLeft
    slideOffsetRight := l.slideOffsetRight
    slides := l.slides }

/-- The `_move(to, setAsOffset)` primitive (lines 392-397): writes the
`translateX` style on the children and, unless `setAsOffset` is `false`,
records it as `currentOffset`. -/
def CState.rawMove (st : CState) (pos : ℚ) (setAsOffset : Bool) : CState :=
  { st with
    styleOffset := some pos
    currentOffset := if setAsOffset then pos else st.currentOffset }

/-- `getCurrentOffset(true)` (lines 244-250): parse the first child's
`translateX`; a missing first child, an unset/unparsable style, or a
parsed `0` (falsy in JavaScript) all fall back to `currentOffset`
(itself defaulting to `0`, which our `ℚ` field already encodes). -/
def CState.rawOffset (st : CState) : ℚ :=
  match st.children, st.styleOffset with
  | _ :: _, some x => if x = 0 then st.currentOffset else x
  | _, _ => st.currentOffset

/-- Lines 299-307 of `move`: the candidate target index
`current-slide + direction`, clamped below by `0` and above by
`slides - 1`, then the timer-loop override that wraps to `0`. -/
def computeThisSlide (st : CState) (direction : ℤ) (opts : MoveOpts) : ℤ :=
  let t0 := st.currentSlide + direction
  let t1 := if t0 < 0 then 0 else t0
  let t2 := if t1 > st.slides - 1 then st.slides - 1 else t1
  if st.opts.loop = true ∧ direction = 1 ∧ opts.event = some .timer ∧
      st.currentSlide = st.slides - 1 then 0
  else t2

/-- The sticky end clamp (lines 338-343): two sequential `if`s pinning
the target into `[0, total-size - stage-size]`, applied only when
`slide-ends-alignment` is `sticky`. -/
def stickyClamp (st : CState) (target : ℚ) : ℚ :=
  if st.opts.slideEndsAlignment = .sticky then
    let t1 := if target < 0 then 0 else target
    if t1 > st.totalSize - st.stageSize then st.totalSize - st.stageSize
    else t1
  else target

/-- Lines 311-343 of `move`: the target pixel offset for a slide index.
`none` is the `single-flex` abort when the target child does not exist
(`children[thisSlide]` is `undefined`). -/
def computeTarget (st : CState) (thisSlide : ℤ) : Option ℚ :=
  let raw : Option ℚ :=
    if st.opts.slideSize = none ∧ st.opts.slideMode = .singleFlex then
      match jsIndex st.children thisSlide with
      | none => none
      | some child =>
        let t := child.offsetLeft
        let alignmentOffset := st.stageSize - child.offsetWidth
        some (match st.opts.slideAlignment with
          | .right => t - alignmentOffset
          | .center => t - alignmentOffset / 2
          | .left => t)
    else
      some ((thisSlide : ℚ) * st.stageSize -
        (st.slideOffsetLeft + st.slideOffsetRight) * (thisSlide : ℚ) -
        st.slideOffsetLeft)
  match raw with
  | none => none
  | some target => some (stickyClamp st target)

/-- The observable outcome of a `move` call once the (cooperatively
scheduled) transition has completed: the resulting state, the number of
times the caller's `callback` was invoked, and the indices carried by the
fired `moved` events. -/
structure MoveResult where
  state : CState
  callbacks : ℕ
  moved : List ℤ
deriving DecidableEq, Repr

/-- `move(direction, opts, callback)` (lines 289-383), run to completion
of its deferred transition logic, with an explicit recursion budget.
The source's recursive sticky re-issue (lines 374-376) strictly decreases
the distance between the committed slide and the boundary it moves
toward, so `move` below instantiates the budget with a sufficient bound;
`moveFuel 0` never fires callbacks, which the sufficiency lemma rules
out for the instantiated bound. -/
def moveFuel : ℕ → CState → ℤ → MoveOpts → MoveResult
  | 0, st, _, _ => ⟨st, 0, []⟩
  | fuel + 1, st, direction, opts =>
    if st.moving = true then
      ⟨st, 1, []⟩
    else
      let thisSlide := computeThisSlide st direction opts
      match computeTarget st thisSlide with
      | none =>
        ⟨{ st with moving := false }, 1, []⟩
      | some target =>
        let st2 := { st with moving := true, currentSlide := thisSlide }
        if st2.rawOffset ≠ -target then
          let st3 := st2.rawMove (-target) true
          ⟨{ st3 with moving := false }, 1, [thisSlide]⟩
        else if st.opts.slideEndsAlignment = .sticky ∧
            st.opts.slideMode.hasSingle = true ∧ direction ≠ 0 ∧
            0 < thisSlide ∧ thisSlide < st2.slides - 1 then
          let inner := moveFuel fuel { st2 with moving := false }
            (if 0 < direction then 1 else -1) opts
          ⟨{ inner.state with moving := false }, inner.callbacks,
            inner.moved ++ List.replicate inner.callbacks thisSlide⟩
        else
          ⟨{ st2 with moving := false }, 1, [thisSlide]⟩

/-- A bound on the depth of the recursive sticky re-issue: the distance
from the current slide to the boundary the move heads toward. -/
def moveMeasure (st : CState) (direction : ℤ) : ℕ :=
  (if 0 < direction then st.slides - 1 - st.currentSlide
   else st.currentSlide).toNat

/-- `move(direction, opts, callback)` run to completion. -/
def move (st : CState) (direction : ℤ) (opts : MoveOpts) : MoveResult :=
  moveFuel (moveMeasure st direction + 1) st direction opts

/-- The per-gesture record built at `touchstart` (lines 495-500) with the
two resistance anchors lazily recorded by `onTouchMove`. -/
structure TouchStart where
  scroll : ℚ
  resistanceTargetLeft : Option ℚ
  resistanceTargetRight : Option ℚ
deriving DecidableEq, Repr

/-- The scrollable left boundary used by the resistance check
(line 529): `0`, widened by `slide-offset-left` when not sticky. -/
def touchBoundLeft (st : CState) : ℚ :=
  0 - (if st.opts.slideEndsAlignment = .sticky then 0
       else st.slideOffsetLeft)

/-- The scrollable right boundary used by the resistance check
(line 533): `total-size - stage-size`, widened by `slide-offset-right`
when not sticky. -/
def touchBoundRight (st : CState) : ℚ :=
  st.totalSize - st.stageSize +
    (if st.opts.slideEndsAlignment = .sticky then 0
     else st.slideOffsetRight)

/-- One swipe-classified `onTouchMove` step (lines 522-542): the raw
live target is `start.scroll - delta.x`; past a boundary the anchor for
that side is recorded on first crossing and the correction
`(|delta.x| - anchor) / 1.25` is applied; inside both boundaries the
anchors are deleted.  Returns the computed live target (applied via
`_move(-target, false)`) and the updated gesture record. -/
def touchMoveStep (st : CState) (start : TouchStart) (dx : ℚ) :
    ℚ × TouchStart :=
  let target := start.scroll - dx
  if target < touchBoundLeft st then
    let anchor := start.resistanceTargetLeft.getD |dx|
    (target + (|dx| - anchor) / 1.25,
      { start with resistanceTargetLeft := some anchor })
  else if target > touchBoundRight st then
    let anchor := start.resistanceTargetRight.getD |dx|
    (target - (|dx| - anchor) / 1.25,
      { start with resistanceTargetRight := some anchor })
  else
    (target,
      { start with resistanceTargetLeft := none,
                   resistanceTargetRight := none })

/-- A `Carousel.Nav` pager as its observable selection state: one
`-selected` flag per nav item. -/
abbrev Nav := List Bool

/-- `Carousel.Nav.setSelected(index)` (lines 616-624): remove
`-selected` from every item, then add it to `children[index || 0]` when
that item exists.  `index` is `none` for the argument-less call in
`initialize`; JavaScript's `index || 0` maps `undefined` and `0` to `0`
and keeps every other number. -/
def navSetSelected (nav : Nav) (index : Option ℤ) : Nav :=
  let j : ℤ := match index with
    | none => 0
    | some i => if i = 0 then 0 else i
  let cleared : Nav := nav.map (fun _ => false)
  if 0 ≤ j ∧ j.toNat < cleared.length then
    cleared.set j.toNat true
  else
    cleared

/-- `Carousel.Nav.update(numOfSlides)` (lines 632-642): rebuild the item
list (`for(i = 0; i < numOfSlides || 0; i++)` appends `max 0 n` fresh,
unselected buttons), then `setSelected(0)`. -/
def navUpdate (n : ℤ) : Nav :=
  navSetSelected (List.replicate n.toNat false) (some 0)

/-- The nav built by `Carousel.Nav.initialize(numOfSlides)`:
`update(numOfSlides).setSelected()`. -/
def navInit (n : ℤ) : Nav :=
  navSetSelected (navUpdate n) none

/-- An externally driven call on a nav instance. -/
inductive NavOp where
  | update (n : ℤ)
  | setSelected (i : Option ℤ)
deriving DecidableEq, Repr

/-- Applies one nav call. -/
def navApply (nav : Nav) : NavOp → Nav
  | .update n => navUpdate n
  | .setSelected i => navSetSelected nav i

/-- Applies a sequence of nav calls in order. -/
def navApplyAll (nav : Nav) (ops : List NavOp) : Nav :=
  ops.foldl navApply nav

/-- The number of nav items carrying the `-selected` marker. -/
def navSelectedCount (nav : Nav) : ℕ :=
  nav.count true

/-- The invariant the spec states for the committed model state:
`slide-count ≥ 1` and `0 ≤ current-slide ≤ slide-count - 1`. -/
def CarouselInv (st : CState) : Prop :=
  1 ≤ st.slides ∧ 0 ≤ st.currentSlide ∧ st.currentSlide ≤ st.slides - 1

instance (st : CState) : Decidable (CarouselInv st) :=
  inferInstanceAs (Decidable (_ ∧ _ ∧ _))

/-- Nonnegativity of a configured `slide-size` option (a negative
configured slide size is outside the spec's quantification over
non-negative widths). -/
def SlideSizeNonneg : Option SlideSize → Prop
  | none => True
  | some (.px v) => 0 ≤ v
  | some (.pct p) => 0 ≤ p

instance (o : Option SlideSize) : Decidable (SlideSizeNonneg o) := by
  cases o with
  | none => exact inferInstanceAs (Decidable True)
  | some s => cases s with
    | px v => exact inferInstanceAs (Decidable (0 ≤ v))
    | pct p => exact inferInstanceAs (Decidable (0 ≤ p))

/-- `move` options with no event tag (a plain manual move). -/
def plainOpts : MoveOpts := ⟨none⟩

/-- `move` options as issued by the periodical timer. -/
def timerOpts : MoveOpts := ⟨some .timer⟩

/-- A child whose measured width and `offsetWidth` agree, at a given
`offsetLeft`. -/
def exChild (w l : ℚ) : Child := ⟨w, l, w⟩

/-- The carousel state right after a `calculate` stored layout `l`:
rest (not moving), offset `0`, no transform written yet. -/
def mkState (opts : COptions) (children : List Child) (l : Layout)
    (cs : ℤ) : CState :=
  ⟨opts, children, l.stageSize, l.totalSize, l.slideOffsetLeft,
    l.slideOffsetRight, l.slides, cs, false, 0, none⟩

/-- The spec's end-to-end example options: `slide-mode = multiple`,
`slide-alignment = left`, `slide-ends-alignment = sticky`. -/
def c2Opts : COptions := ⟨true, none, .left, .sticky, .multiple⟩

/-- Four children of 100px each. -/
def c2Children : List Child :=
  [exChild 100 0, exChild 100 100, exChild 100 200, exChild 100 300]

/-- The layout the geometry engine computes for the end-to-end example:
stage 250, measured total 400. -/
def c2Layout : Layout := calculate c2Opts 250 400 c2Children

/-- The end-to-end example's carousel at rest on slide 0. -/
def c2State : CState := mkState c2Opts c2Children c2Layout 0

/-- A three-slide sticky `multiple` carousel (stage 300, total 900,
no alignment padding) at rest on its last slide, index 2. -/
def c3State : CState :=
  ⟨⟨true, none, .center, .sticky, .multiple⟩, [], 300, 900, 0, 0, 3, 2,
    false, -600, some (-600)⟩

/-- The same three-slide sticky geometry at rest on slide 1. -/
def c4State : CState :=
  ⟨⟨true, none, .center, .sticky, .multiple⟩, [], 300, 900, 0, 0, 3, 1,
    false, -300, some (-300)⟩

/-- A carousel with a transition already in flight. -/
def c5State : CState :=
  ⟨⟨true, none, .center, .sticky, .multiple⟩, [], 300, 900, 0, 0, 3, 1,
    true, -300, some (-300)⟩

/-- A single-slide sticky carousel whose stage equals its total size, so
both touch boundaries sit at 0; the drag below starts at offset 0. -/
def c6State : CState :=
  ⟨⟨true, none, .center, .sticky, .multiple⟩, [], 300, 300, 0, 0, 1, 0,
    false, 0, some 0⟩

/-- A touch gesture started at rendered offset 0, no anchors yet. -/
def c6Start : TouchStart := ⟨0, none, none⟩

/-- A `single-flex` carousel whose child list is empty, so every target
slide index lacks a child. -/
def c9State : CState :=
  ⟨⟨true, none, .center, .sticky, .singleFlex⟩, [], 300, 300, 0, 0, 1, 0,
    false, 0, none⟩

/-! ### Lemmas about the geometry engine -/

theorem packGoF_fst_nonneg (size : ℚ) (children : List Child)
    (hch : ∀ c ∈ children, 0 ≤ c.size) :
    ∀ (fuel : ℕ) (slideSize childSize : ℚ) (index : ℕ),
      0 ≤ slideSize → 0 ≤ childSize →
      0 ≤ (packGoF size children fuel slideSize childSize index).1 := by
  intro fuel
  induction fuel with
  | zero =>
    intro slideSize childSize index hs hc
    simp only [packGoF]
    linarith
  | succ n ih =>
    intro slideSize childSize index hs hc
    simp only [packGoF]
    have hc' : 0 ≤ (match children[index]? with
        | some c => c.size
        | none => (0 : ℚ)) := by
      cases h : children[index]? with
      | none => simp
      | some c =>
        have : c ∈ children := List.getElem?_mem h
        simpa using hch c this
    split
    · exact ih _ _ _ (by linarith) hc'
    · simpa using by linarith

theorem packGo_fst_nonneg (size : ℚ) (children : List Child)
    (hch : ∀ c ∈ children, 0 ≤ c.size) (slideSize childSize : ℚ)
    (index : ℕ) (hs : 0 ≤ slideSize) (hc : 0 ≤ childSize) :
    0 ≤ (packGo size children slideSize childSize index).1 :=
  packGoF_fst_nonneg size children hch _ _ _ _ hs hc

theorem calcSlideSize_nonneg (opts : COptions) (size totalSize : ℚ)
    (children : List Child) (hsize : 0 ≤ size)
    (hch : ∀ c ∈ children, 0 ≤ c.size)
    (hopt : SlideSizeNonneg opts.slideSize) :
    0 ≤ calcSlideSize opts size totalSize children := by
  unfold calcSlideSize calcRawSlideSize
  cases ho : opts.slideSize with
  | none =>
    cases children with
    | nil =>
      simp [resolveSlideSize]
      positivity
    | cons c0 rest =>
      by_cases hm : opts.slideMode = .single
      · simp only [hm, if_pos rfl, resolveSlideSize]
        exact hch c0 (List.mem_cons_self c0 rest)
      · simp only [if_neg hm]
        split
        · simp only [resolveSlideSize]
          positivity
        · simp only [resolveSlideSize]
          exact packGo_fst_nonneg size (c0 :: rest) hch 0 0 0 le_rfl le_rfl
  | some s =>
    rw [ho] at hopt
    cases s with
    | px v =>
      by_cases hv : v = 0
      · simp [hv, resolveSlideSize, hsize]
      · simpa [hv, resolveSlideSize] using hopt
    | pct p =>
      have hp : (0 : ℚ) ≤ (p : ℚ) := by exact_mod_cast hopt
      simp only [resolveSlideSize]
      positivity

theorem calcSlides_pos (opts : COptions) (size totalSize : ℚ)
    (children : List Child) (hsize : 0 ≤ size) (htot : 0 ≤ totalSize)
    (hch : ∀ c ∈ children, 0 ≤ c.size)
    (hopt : SlideSizeNonneg opts.slideSize) :
    1 ≤ calcSlides opts size totalSize children := by
  have hss := calcSlideSize_nonneg opts size totalSize children hsize hch hopt
  have hS : 0 ≤ (if opts.slideSize = none ∧ opts.slideMode.hasSingle = true
      then (children.length : ℤ)
      else Int.ceil (totalSize / calcSlideSize opts size totalSize children)) := by
    split
    · positivity
    · exact Int.ceil_nonneg (div_nonneg htot hss)
  simp only [calcSlides]
  by_cases h : calcSlideSize opts size totalSize children = 0 ∨
      (if opts.slideSize = none ∧ opts.slideMode.hasSingle = true
        then (children.length : ℤ)
        else Int.ceil (totalSize / calcSlideSize opts size totalSize children)) = 0
  · rw [if_pos h]
  · rw [if_neg h]
    rw [not_or] at h
    omega

theorem calculate_slides_pos (opts : COptions) (size totalSize : ℚ)
    (children : List Child) (hsize : 0 ≤ size) (htot : 0 ≤ totalSize)
    (hch : ∀ c ∈ children, 0 ≤ c.size)
    (hopt : SlideSizeNonneg opts.slideSize) :
    1 ≤ (calculate opts size totalSize children).slides :=
  calcSlides_pos opts size totalSize children hsize htot hch hopt

/-! ### Lemmas about the motion controller -/

theorem computeThisSlide_range (st : CState) (d : ℤ) (o : MoveOpts)
    (h : 1 ≤ st.slides) :
    0 ≤ computeThisSlide st d o ∧
      computeThisSlide st d o ≤ st.slides - 1 := by
  simp only [computeThisSlide]
  split
  · omega
  · split <;> split <;> omega

theorem computeThisSlide_eq_add (st : CState) (d : ℤ) (o : MoveOpts)
    (h1 : 0 < computeThisSlide st d o)
    (h2 : computeThisSlide st d o < st.slides - 1) :
    computeThisSlide st d o = st.currentSlide + d := by
  simp only [computeThisSlide] at h1 h2 ⊢
  split at h1 <;> rename_i hloop
  · omega
  · rw [if_neg hloop] at h2 ⊢
    split at h1 <;> split at h1 <;> omega

theorem computeThisSlide_timer (st : CState) (o : MoveOpts)
    (hl : st.opts.loop = true) (he : o.event = some .timer)
    (hc : st.currentSlide = st.slides - 1) :
    computeThisSlide st 1 o = 0 := by
  simp only [computeThisSlide]
  rw [if_pos ⟨hl, trivial, he, hc⟩]

theorem rawOffset_update (st : CState) (m : Bool) (cs : ℤ) :
    ({ st with moving := m, currentSlide := cs } : CState).rawOffset =
      st.rawOffset := rfl

theorem moveFuel_state_inv (fuel : ℕ) :
    ∀ (st : CState) (d : ℤ) (o : MoveOpts), CarouselInv st →
      CarouselInv (moveFuel fuel st d o).state := by
  induction fuel with
  | zero =>
    intro st d o h
    exact h
  | succ n ih =>
    intro st d o h
    have hrange := computeThisSlide_range st d o h.1
    simp only [moveFuel]
    split
    · exact h
    · split
      · exact ⟨h.1, h.2.1, h.2.2⟩
      · split
        · exact ⟨h.1, hrange.1, hrange.2⟩
        · split
          · have hinner := ih
              { st with currentSlide := computeThisSlide st d o, moving := false }
              (if 0 < d then 1 else -1) o ⟨h.1, hrange.1, hrange.2⟩
            exact ⟨hinner.1, hinner.2.1, hinner.2.2⟩
          · exact ⟨h.1, hrange.1, hrange.2⟩

theorem moveFuel_callbacks (fuel : ℕ) :
    ∀ (st : CState) (d : ℤ) (o : MoveOpts), moveMeasure st d < fuel →
      (moveFuel fuel st d o).callbacks = 1 := by
  induction fuel with
  | zero =>
    intro st d o h
    exact absurd h (Nat.not_lt_zero _)
  | succ n ih =>
    intro st d o h
    simp only [moveFuel]
    split
    · rfl
    · split
      · rfl
      · split
        · rfl
        · split
          · rename_i hcond
            obtain ⟨_, _, hd0, hpos, hlt⟩ := hcond
            have hlt' : computeThisSlide st d o < st.slides - 1 := hlt
            have heq := computeThisSlide_eq_add st d o hpos hlt'
            apply ih
            unfold moveMeasure at h ⊢
            dsimp only
            by_cases hdpos : 0 < d
            · rw [if_pos hdpos] at h
              rw [if_pos hdpos, if_pos (show (0:ℤ) < 1 by omega)]
              omega
            · have hdneg : d < 0 := by omega
              rw [if_neg hdpos] at h
              rw [if_neg hdpos, if_neg (show ¬(0:ℤ) < -1 by omega)]
              omega
          · rfl

theorem computeTarget_some (st : CState) (i : ℤ) (t : ℚ)
    (h : computeTarget st i = some t) : ∃ raw, t = stickyClamp st raw := by
  simp only [computeTarget] at h
  by_cases hflex : st.opts.slideSize = none ∧ st.opts.slideMode = .singleFlex
  · rw [if_pos hflex] at h
    cases hj : jsIndex st.children i with
    | none =>
      rw [hj] at h
      cases h
    | some child =>
      rw [hj] at h
      exact ⟨_, (Option.some.inj h).symm⟩
  · rw [if_neg hflex] at h
    exact ⟨_, (Option.some.inj h).symm⟩

theorem computeTarget_of_not_flex (st : CState) (i : ℤ)
    (hflex : ¬(st.opts.slideSize = none ∧ st.opts.slideMode = .singleFlex)) :
    computeTarget st i = some (stickyClamp st ((i : ℚ) * st.stageSize -
      (st.slideOffsetLeft + st.slideOffsetRight) * (i : ℚ) -
      st.slideOffsetLeft)) := by
  simp only [computeTarget]
  rw [if_neg hflex]

theorem stickyClamp_bounds (st : CState) (target : ℚ)
    (hs : st.opts.slideEndsAlignment = .sticky)
    (hts : 0 ≤ st.totalSize - st.stageSize) :
    0 ≤ stickyClamp st target ∧
      stickyClamp st target ≤ st.totalSize - st.stageSize := by
  simp only [stickyClamp, if_pos hs]
  split_ifs <;> constructor <;> linarith

/-! ### Path lemmas: the observable outcome of `move` on each of its
control paths (reentrant guard, `single-flex` abort, animated, sticky
re-issue skipped, no-op). -/

theorem move_guard (st : CState) (d : ℤ) (o : MoveOpts)
    (hmov : st.moving = true) : move st d o = ⟨st, 1, []⟩ := by
  simp only [move, moveFuel, hmov, if_pos]

theorem move_abort (st : CState) (d : ℤ) (o : MoveOpts)
    (hmov : st.moving = false)
    (ht : computeTarget st (computeThisSlide st d o) = none) :
    move st d o = ⟨{ st with moving := false }, 1, []⟩ := by
  simp only [move, moveFuel]
  rw [if_neg (show ¬st.moving = true by simp [hmov]), ht]

theorem move_animate (st : CState) (d : ℤ) (o : MoveOpts) (t : ℚ)
    (hmov : st.moving = false)
    (ht : computeTarget st (computeThisSlide st d o) = some t)
    (hraw : st.rawOffset ≠ -t) :
    move st d o =
      ⟨{ st with currentSlide := computeThisSlide st d o, moving := false, currentOffset := -t, styleOffset := some (-t) },
        1, [computeThisSlide st d o]⟩ := by
  have hraw' : ({ st with moving := true, currentSlide := computeThisSlide st d o } : CState).rawOffset ≠ -t := hraw
  simp only [move, moveFuel]
  rw [if_neg (show ¬st.moving = true by simp [hmov]), ht]
  dsimp only
  rw [if_pos hraw']
  rfl

theorem move_rest (st : CState) (d : ℤ) (o : MoveOpts) (t : ℚ)
    (hmov : st.moving = false)
    (ht : computeTarget st (computeThisSlide st d o) = some t)
    (hraw : st.rawOffset = -t)
    (hnr : ¬(st.opts.slideEndsAlignment = .sticky ∧
        st.opts.slideMode.hasSingle = true ∧ d ≠ 0 ∧
        0 < computeThisSlide st d o ∧
        computeThisSlide st d o < st.slides - 1)) :
    move st d o =
      ⟨{ st with currentSlide := computeThisSlide st d o, moving := false },
        1, [computeThisSlide st d o]⟩ := by
  have hraw' : ¬({ st with moving := true, currentSlide := computeThisSlide st d o } : CState).rawOffset ≠ -t := fun hc => hc hraw
  simp only [move, moveFuel]
  rw [if_neg (show ¬st.moving = true by simp [hmov]), ht]
  dsimp only
  rw [if_neg hraw', if_neg hnr]

theorem computeThisSlide_zero (st : CState) (o : MoveOpts)
    (hinv : CarouselInv st) :
    computeThisSlide st 0 o = st.currentSlide := by
  obtain ⟨h1, h2, h3⟩ := hinv
  simp only [computeThisSlide]
  split
  · rename_i hc
    exact absurd hc.2.1 (by omega)
  · split <;> split <;> omega

/-! ### Lemmas about the `Carousel.Nav` selection state -/

theorem count_true_set_le :
    ∀ (l : List Bool) (j : ℕ), (∀ b ∈ l, b = false) →
      (l.set j true).count true ≤ 1
  | [], _, _ => by simp
  | b :: tl, 0, h => by
    have htl : tl.count true = 0 := by
      rw [List.count_eq_zero]
      intro hx
      exact absurd (h true (List.mem_cons_of_mem _ hx)) (by simp)
    simp [List.count_cons, htl]
  | b :: tl, j + 1, h => by
    have hb : b = false := h b (List.mem_cons_self _ _)
    have hrec := count_true_set_le tl j
      (fun x hx => h x (List.mem_cons_of_mem _ hx))
    simp [List.set, List.count_cons, hb]
    omega

theorem navSetSelected_count_le (nav : Nav) (i : Option ℤ) :
    navSelectedCount (navSetSelected nav i) ≤ 1 := by
  simp only [navSetSelected, navSelectedCount]
  split
  · exact count_true_set_le _ _ (by simp)
  · have h0 : (List.map (fun _ => false) nav).count true = 0 := by
      rw [List.count_eq_zero]
      simp
    omega

theorem navApply_count_le (nav : Nav) (op : NavOp) :
    navSelectedCount (navApply nav op) ≤ 1 := by
  cases op with
  | update n =>
    simp only [navApply, navUpdate]
    exact navSetSelected_count_le _ _
  | setSelected i =>
    simp only [navApply]
    exact navSetSelected_count_le _ _

theorem navApplyAll_count_le (ops : List NavOp) :
    ∀ nav : Nav, navSelectedCount nav ≤ 1 →
      navSelectedCount (navApplyAll nav ops) ≤ 1 := by
  induction ops with
  | nil =>
    intro nav h
    exact h
  | cons op rest ih =>
    intro nav h
    exact ih _ (navApply_count_le nav op)

theorem navSetSelected_out_of_range (nav : Nav) (i : ℤ)
    (h : i < 0 ∨ (nav.length : ℤ) ≤ i) :
    navSelectedCount (navSetSelected nav (some i)) = 0 := by
  simp only [navSetSelected, navSelectedCount]
  have hj : (if i = 0 then (0 : ℤ) else i) = i := by split <;> omega
  rw [hj]
  rw [if_neg fun hc => by
    rw [List.length_map] at hc
    omega]
  rw [List.count_eq_zero]
  simp

theorem navUpdate_selects_zero (n : ℤ) (h : 1 ≤ n) :
    navSelectedCount (navUpdate n) = 1 ∧
      (navUpdate n).getD 0 false = true := by
  obtain ⟨m, hm⟩ : ∃ m, n.toNat = m + 1 := ⟨n.toNat - 1, by omega⟩
  simp [navUpdate, navSetSelected, navSelectedCount, List.map_replicate,
    hm, List.replicate_succ, List.count_cons, List.count_replicate]

theorem move_commits (st : CState) (d : ℤ) (o : MoveOpts) (t : ℚ)
    (hmov : st.moving = false)
    (ht : computeTarget st (computeThisSlide st d o) = some t)
    (hnr : ¬(st.opts.slideEndsAlignment = .sticky ∧
        st.opts.slideMode.hasSingle = true ∧ d ≠ 0 ∧
        0 < computeThisSlide st d o ∧
        computeThisSlide st d o < st.slides - 1)) :
    (move st d o).state.currentSlide = computeThisSlide st d o := by
  by_cases hraw : st.rawOffset ≠ -t
  · rw [move_animate st d o t hmov ht hraw]
  · push_neg at hraw
    rw [move_rest st d o t hmov ht hraw hnr]

theorem move_offset_cases (st : CState) (d : ℤ) (o : MoveOpts) (t : ℚ)
    (hmov : st.moving = false)
    (ht : computeTarget st (computeThisSlide st d o) = some t)
    (hnr : ¬(st.opts.slideEndsAlignment = .sticky ∧
        st.opts.slideMode.hasSingle = true ∧ d ≠ 0 ∧
        0 < computeThisSlide st d o ∧
        computeThisSlide st d o < st.slides - 1)) :
    (move st d o).state.currentOffset = -t ∨
      (move st d o).state.currentOffset = st.currentOffset := by
  by_cases hraw : st.rawOffset ≠ -t
  · rw [move_animate st d o t hmov ht hraw]
    left
    rfl
  · push_neg at hraw
    rw [move_rest st d o t hmov ht hraw hnr]
    right
    rfl

/-! ### The claims -/

/-- C1: for every carousel state reachable by any sequence of `move`
calls (any direction, any event tag), after each move completes the
computed slide count satisfies `slide-count ≥ 1` and the committed
current-slide index satisfies `0 ≤ current-slide ≤ slide-count - 1`;
the candidate target index `current-slide + direction` is clamped into
this range before being committed. -/
theorem claim_C1 :
    (∀ (opts : COptions) (size totalSize : ℚ) (children : List Child),
        0 ≤ size → 0 ≤ totalSize → (∀ c ∈ children, 0 ≤ c.size) →
        SlideSizeNonneg opts.slideSize →
        1 ≤ (calculate opts size totalSize children).slides) ∧
    (∀ (st : CState) (d : ℤ) (o : MoveOpts),
        CarouselInv st → CarouselInv (move st d o).state) ∧
    (∀ (st : CState) (d : ℤ) (o : MoveOpts), 1 ≤ st.slides →
        0 ≤ computeThisSlide st d o ∧
          computeThisSlide st d o ≤ st.slides - 1) :=
  ⟨calculate_slides_pos,
    fun st d o h => moveFuel_state_inv _ st d o h,
    computeThisSlide_range⟩

/-- Witness for C1 at concrete inputs: the end-to-end geometry of the
spec example and a concrete three-slide state. -/
theorem claim_C1_witness :
    1 ≤ (calculate c2Opts 250 400 c2Children).slides ∧
      CarouselInv (move c3State 1 timerOpts).state ∧
      (0 ≤ computeThisSlide c3State 1 timerOpts ∧
        computeThisSlide c3State 1 timerOpts ≤ c3State.slides - 1) :=
  ⟨claim_C1.1 c2Opts 250 400 c2Children (by norm_num) (by norm_num)
      (by simp only [c2Children, exChild]
          intro c hc
          simp only [List.mem_cons, List.not_mem_nil, or_false] at hc
          rcases hc with h | h | h | h <;> rw [h] <;> norm_num)
      (by simp [c2Opts, SlideSizeNonneg]),
    claim_C1.2.1 c3State 1 timerOpts
      (by refine ⟨?_, ?_, ?_⟩ <;> norm_num [c3State]),
    claim_C1.2.2 c3State 1 timerOpts (by norm_num [c3State])⟩

/-- C5: a `move` issued while a transition is in flight invokes its
callback immediately and returns with every piece of state unchanged. -/
theorem claim_C5 :
    ∀ (st : CState) (d : ℤ) (o : MoveOpts), st.moving = true →
      move st d o = ⟨st, 1, []⟩ :=
  move_guard

/-- Witness for C5: a concrete in-flight state. -/
theorem claim_C5_witness : move c5State 2 plainOpts = ⟨c5State, 1, []⟩ :=
  claim_C5 c5State 2 plainOpts rfl

/-- C8: every call to `move` invokes its completion callback exactly
once, on every control path. -/
theorem claim_C8 :
    ∀ (st : CState) (d : ℤ) (o : MoveOpts), (move st d o).callbacks = 1 :=
  fun st d o => moveFuel_callbacks _ st d o (Nat.lt_succ_self _)

/-- C9: in `single-flex` mode a `move` whose target slide index has no
child aborts gracefully: the in-flight flag is cleared, the callback
fires (exactly once), and the state is unchanged; `move` is a total
function, so no error is ever raised. -/
theorem claim_C9 :
    ∀ (st : CState) (d : ℤ) (o : MoveOpts), st.moving = false →
      st.opts.slideSize = none → st.opts.slideMode = .singleFlex →
      jsIndex st.children (computeThisSlide st d o) = none →
      move st d o = ⟨st, 1, []⟩ := by
  intro st d o hmov hss hm hj
  have ht : computeTarget st (computeThisSlide st d o) = none := by
    simp only [computeTarget]
    rw [if_pos ⟨hss, hm⟩, hj]
  rw [move_abort st d o hmov ht]
  have hst : ({ st with moving := false } : CState) = st := by
    cases st
    simp only at hmov
    rw [hmov]
  rw [hst]

/-- Witness for C9: a flex carousel with no children. -/
theorem claim_C9_witness : move c9State 1 plainOpts = ⟨c9State, 1, []⟩ :=
  claim_C9 c9State 1 plainOpts rfl rfl rfl (by simp [jsIndex, c9State])

/-- C10: after any sequence of `update`/`setSelected` calls at most one
nav item is selected; `setSelected(i)` with `i` outside
`[0, item-count - 1]` leaves zero items selected; and `update(n)`
resets the selection to item 0. -/
theorem claim_C10 :
    (∀ (n : ℤ) (ops : List NavOp),
        navSelectedCount (navApplyAll (navInit n) ops) ≤ 1) ∧
    (∀ (nav : Nav) (i : ℤ), i < 0 ∨ (nav.length : ℤ) ≤ i →
        navSelectedCount (navSetSelected nav (some i)) = 0) ∧
    (∀ n : ℤ, 1 ≤ n → navSelectedCount (navUpdate n) = 1 ∧
        (navUpdate n).getD 0 false = true) :=
  ⟨fun _n ops => navApplyAll_count_le ops _ (navSetSelected_count_le _ _),
    navSetSelected_out_of_range,
    navUpdate_selects_zero⟩

/-- Witness for C10 at concrete inputs. -/
theorem claim_C10_witness :
    navSelectedCount (navApplyAll (navInit 3)
      [NavOp.update 5, NavOp.setSelected (some 3)]) ≤ 1 ∧
    navSelectedCount (navSetSelected [false, true, false] (some 7)) = 0 ∧
    (navSelectedCount (navUpdate 5) = 1 ∧
      (navUpdate 5).getD 0 false = true) :=
  ⟨claim_C10.1 3 [NavOp.update 5, NavOp.setSelected (some 3)],
    claim_C10.2.1 [false, true, false] 7 (Or.inr (by norm_num)),
    claim_C10.2.2 5 (by norm_num)⟩

/-- C2: the end-to-end example: 4 children of 100px in a 250px stage,
`multiple` mode, `left` alignment, `sticky` ends.  The packing loop
stops after two whole children (a third would overflow the stage), so
the slide width is 200; `slide-count = ceil(400/200) = 2`; and moving
to slide 1 commits the clamped target `400 - 250 = 150` (a rendered
offset of `-150`). -/
theorem claim_C2 :
    c2Layout.slideSize = 200 ∧ c2Layout.slides = 2 ∧
    computeTarget c2State 1 = some 150 ∧
    (move c2State 1 plainOpts).state.currentSlide = 1 ∧
    (move c2State 1 plainOpts).state.currentOffset = -150 := by
  refine ⟨?_, ?_, ?_, ?_, ?_⟩ <;>
    simp [c2Layout, calculate, calcSlideSize, calcRawSlideSize,
      resolveSlideSize, calcSlides, packGo, packGoF, c2Opts, c2Children,
      exChild, SlideMode.hasSingle, c2State, mkState, move, moveFuel,
      moveMeasure, computeThisSlide, computeTarget, stickyClamp,
      CState.rawOffset, CState.rawMove, jsIndex, plainOpts] <;>
    norm_num

/-- C3: `move` wraps the target index to 0 exactly when loop is on, the
direction is exactly `+1`, the event tag is `'timer'`, and the current
slide is the last one; concretely, with 3 slides, a timer `move(+1)`
from index 2 commits index 0 while a manual `move(+1)` from index 2
stays at index 2. -/
theorem claim_C3 :
    (∀ (st : CState) (o : MoveOpts), CarouselInv st → st.moving = false →
        st.opts.loop = true → o.event = some .timer →
        st.currentSlide = st.slides - 1 →
        ((st.opts.slideSize = none ∧ st.opts.slideMode = .singleFlex) →
          st.children ≠ []) →
        (move st 1 o).state.currentSlide = 0) ∧
    (∀ (st : CState) (d : ℤ) (o : MoveOpts),
        computeThisSlide st d o =
          if st.opts.loop = true ∧ d = 1 ∧ o.event = some EventTag.timer ∧
              st.currentSlide = st.slides - 1 then 0
          else min (max (st.currentSlide + d) 0) (st.slides - 1)) ∧
    (move c3State 1 timerOpts).state.currentSlide = 0 ∧
    (move c3State 1 plainOpts).state.currentSlide = 2 := by
  refine ⟨?_, ?_, ?_, ?_⟩
  · intro st o hinv hmov hloop hev hlast hch
    have hT : computeThisSlide st 1 o = 0 :=
      computeThisSlide_timer st o hloop hev hlast
    obtain ⟨t, ht⟩ : ∃ t, computeTarget st (computeThisSlide st 1 o) = some t := by
      by_cases hflex : st.opts.slideSize = none ∧ st.opts.slideMode = .singleFlex
      · obtain ⟨c, tl, hcl⟩ : ∃ c tl, st.children = c :: tl := by
          cases hlist : st.children with
          | nil => exact absurd hlist (hch hflex)
          | cons c tl => exact ⟨c, tl, rfl⟩
        simp only [computeTarget, if_pos hflex, hT, jsIndex, hcl]
        norm_num
      · exact ⟨_, computeTarget_of_not_flex st _ hflex⟩
    have hnr : ¬(st.opts.slideEndsAlignment = .sticky ∧
        st.opts.slideMode.hasSingle = true ∧ (1:ℤ) ≠ 0 ∧
        0 < computeThisSlide st 1 o ∧
        computeThisSlide st 1 o < st.slides - 1) := by
      intro hc
      rw [hT] at hc
      exact lt_irrefl 0 hc.2.2.2.1
    rw [move_commits st 1 o t hmov ht hnr, hT]
  · intro st d o
    simp only [computeThisSlide]
    split
    · rfl
    · simp only [min_def, max_def]
      split_ifs <;> omega
  · simp [c3State, timerOpts, move, moveFuel, moveMeasure,
      computeThisSlide, computeTarget, stickyClamp, CState.rawOffset,
      CState.rawMove, jsIndex, SlideMode.hasSingle] <;> norm_num
  · simp [c3State, plainOpts, move, moveFuel, moveMeasure,
      computeThisSlide, computeTarget, stickyClamp, CState.rawOffset,
      CState.rawMove, jsIndex, SlideMode.hasSingle] <;> norm_num

/-- Witness for C3: the concrete three-slide looping state, driven by
the general wrap statement and the target-index characterization. -/
theorem claim_C3_witness :
    (move c3State 1 timerOpts).state.currentSlide = 0 ∧
    computeThisSlide c3State 2 plainOpts =
      (if c3State.opts.loop = true ∧ (2:ℤ) = 1 ∧
          plainOpts.event = some EventTag.timer ∧
          c3State.currentSlide = c3State.slides - 1 then 0
        else min (max (c3State.currentSlide + 2) 0) (c3State.slides - 1)) :=
  ⟨claim_C3.1 c3State timerOpts
      (by refine ⟨?_, ?_, ?_⟩ <;> norm_num [c3State]) rfl rfl rfl
      (by norm_num [c3State])
      (fun h => absurd h.2 (by simp [c3State])),
    claim_C3.2.1 c3State 2 plainOpts⟩

/-- C4: with `slide-ends-alignment = sticky` every computed move target
is clamped into `[0, total-size - stage-size]`; with stage 300 and
total 900, no move from the concrete three-slide state ever writes a
rendered offset below `-600` or above `0`. -/
theorem claim_C4 :
    (∀ (st : CState) (i : ℤ) (t : ℚ),
        st.opts.slideEndsAlignment = .sticky →
        0 ≤ st.totalSize - st.stageSize → computeTarget st i = some t →
        0 ≤ t ∧ t ≤ st.totalSize - st.stageSize) ∧
    (∀ (d : ℤ) (o : MoveOpts),
        -600 ≤ (move c4State d o).state.currentOffset ∧
          (move c4State d o).state.currentOffset ≤ 0) := by
  constructor
  · intro st i t hs hts ht
    obtain ⟨raw, rfl⟩ := computeTarget_some st i t ht
    exact stickyClamp_bounds st raw hs hts
  · intro d o
    have hflex : ¬(c4State.opts.slideSize = none ∧
        c4State.opts.slideMode = .singleFlex) := by
      simp [c4State]
    have ht := computeTarget_of_not_flex c4State
      (computeThisSlide c4State d o) hflex
    have hb := stickyClamp_bounds c4State
      ((computeThisSlide c4State d o : ℚ) * c4State.stageSize -
        (c4State.slideOffsetLeft + c4State.slideOffsetRight) *
          (computeThisSlide c4State d o : ℚ) - c4State.slideOffsetLeft)
      rfl (by norm_num [c4State])
    have hspan : c4State.totalSize - c4State.stageSize = 600 := by
      norm_num [c4State]
    rw [hspan] at hb
    have hnr : ¬(c4State.opts.slideEndsAlignment = .sticky ∧
        c4State.opts.slideMode.hasSingle = true ∧ d ≠ 0 ∧
        0 < computeThisSlide c4State d o ∧
        computeThisSlide c4State d o < c4State.slides - 1) := by
      intro hc
      simpa [c4State, SlideMode.hasSingle] using hc.2.1
    rcases move_offset_cases c4State d o _ rfl ht hnr with hoff | hoff <;>
      rw [hoff]
    · constructor <;> linarith [hb.1, hb.2]
    · norm_num [c4State]

/-- Witness for C4: a clamped target of the concrete state and a
concrete forward move. -/
theorem claim_C4_witness :
    (0 ≤ (600:ℚ) ∧ (600:ℚ) ≤ c4State.totalSize - c4State.stageSize) ∧
    (-600 ≤ (move c4State 1 plainOpts).state.currentOffset ∧
      (move c4State 1 plainOpts).state.currentOffset ≤ 0) :=
  ⟨claim_C4.1 c4State 2 600 rfl (by norm_num [c4State])
      (by simp [computeTarget, stickyClamp, c4State, jsIndex] <;> norm_num),
    claim_C4.2 1 plainOpts⟩

/-- C7: `move(0)` when the carousel is at rest (the raw offset already
equals the negated target of the current slide) fires a `moved` event
carrying the same index, leaves `current-slide` unchanged, and does not
change the raw offset. -/
theorem claim_C7 :
    ∀ (st : CState) (o : MoveOpts) (t : ℚ), CarouselInv st →
      st.moving = false → computeTarget st st.currentSlide = some t →
      st.rawOffset = -t →
      (move st 0 o).state.currentSlide = st.currentSlide ∧
      (move st 0 o).state.currentOffset = st.currentOffset ∧
      (move st 0 o).state.styleOffset = st.styleOffset ∧
      (move st 0 o).moved = [st.currentSlide] ∧
      (move st 0 o).callbacks = 1 := by
  intro st o t hinv hmov ht hraw
  have hT := computeThisSlide_zero st o hinv
  have ht' : computeTarget st (computeThisSlide st 0 o) = some t := by
    rw [hT]
    exact ht
  have hnr : ¬(st.opts.slideEndsAlignment = .sticky ∧
      st.opts.slideMode.hasSingle = true ∧ (0:ℤ) ≠ 0 ∧
      0 < computeThisSlide st 0 o ∧
      computeThisSlide st 0 o < st.slides - 1) :=
    fun hc => hc.2.2.1 rfl
  rw [move_rest st 0 o t hmov ht' hraw hnr]
  exact ⟨hT, rfl, rfl, by rw [hT], rfl⟩

/-- Witness for C7: the concrete three-slide state at rest on its last
slide. -/
theorem claim_C7_witness :
    (move c3State 0 plainOpts).state.currentSlide = c3State.currentSlide ∧
    (move c3State 0 plainOpts).state.currentOffset = c3State.currentOffset ∧
    (move c3State 0 plainOpts).state.styleOffset = c3State.styleOffset ∧
    (move c3State 0 plainOpts).moved = [c3State.currentSlide] ∧
    (move c3State 0 plainOpts).callbacks = 1 :=
  claim_C7 c3State plainOpts 600
    (by refine ⟨?_, ?_, ?_⟩ <;> norm_num [c3State])
    rfl
    (by simp [computeTarget, stickyClamp, c3State, jsIndex] <;> norm_num)
    (by norm_num [CState.rawOffset, c3State])

/-- C6 (counterexample): the claim says excess travel past the
resistance anchor is scaled by `1/1.25` rather than `1:1`.  In the
concrete drag below, the anchor is recorded at raw delta 10 (live
offset `-10`); increasing the raw delta to 20 (a raw excess of 10 past
the anchor) would put the live offset at `-10 - 10/1.25 = -18` under
the claimed scaling, but the code computes `-12`: the subtracted
correction is `excess/1.25`, so the net advance is `excess · (1 -
1/1.25) = excess/5`, not `excess/1.25`. -/
theorem claim_C6_counterexample :
    (touchMoveStep c6State c6Start 10).1 = -10 ∧
    (touchMoveStep c6State c6Start 10).2.resistanceTargetLeft = some 10 ∧
    (touchMoveStep c6State (touchMoveStep c6State c6Start 10).2 20).1 = -12 ∧
    (-10 : ℚ) - (20 - 10) / 1.25 = -18 ∧
    ((-12 : ℚ) ≠ -18) := by
  refine ⟨?_, ?_, ?_, by norm_num, by norm_num⟩ <;>
    simp [touchMoveStep, touchBoundLeft, touchBoundRight, c6State,
      c6Start] <;>
    norm_num

/-- C6 (amended): during a touch drag past a scrollable boundary, the
code subtracts a correction of `excess/1.25` from the 1:1 mapping, so
the live offset advances past the anchor at the rate `1 - 1/1.25 =
1/5` of the raw delta — strictly smaller than the undamped 1:1 rate —
and both anchors are reset whenever the raw target returns inside the
boundaries. -/
theorem claim_C6_amended :
    (∀ (st : CState) (start : TouchStart) (a dx1 dx2 : ℚ),
        start.resistanceTargetLeft = some a → 0 ≤ dx1 → dx1 ≤ dx2 →
        start.scroll - dx1 < touchBoundLeft st →
        start.scroll - dx2 < touchBoundLeft st →
        (touchMoveStep st start dx1).1 - (touchMoveStep st start dx2).1 =
            (dx2 - dx1) / 5 ∧
          (dx1 < dx2 →
            (touchMoveStep st start dx1).1 -
                (touchMoveStep st start dx2).1 <
              (start.scroll - dx1) - (start.scroll - dx2)) ∧
          (touchMoveStep st start dx2).2.resistanceTargetLeft = some a) ∧
    (∀ (st : CState) (start : TouchStart) (a dx1 dx2 : ℚ),
        start.resistanceTargetRight = some a → dx2 ≤ dx1 → dx1 ≤ 0 →
        touchBoundLeft st ≤ touchBoundRight st →
        touchBoundRight st < start.scroll - dx1 →
        touchBoundRight st < start.scroll - dx2 →
        (touchMoveStep st start dx2).1 - (touchMoveStep st start dx1).1 =
            (dx1 - dx2) / 5 ∧
          (dx2 < dx1 →
            (touchMoveStep st start dx2).1 -
                (touchMoveStep st start dx1).1 <
              (start.scroll - dx2) - (start.scroll - dx1)) ∧
          (touchMoveStep st start dx2).2.resistanceTargetRight = some a) ∧
    (∀ (st : CState) (start : TouchStart) (dx : ℚ),
        touchBoundLeft st ≤ start.scroll - dx →
        start.scroll - dx ≤ touchBoundRight st →
        (touchMoveStep st start dx).1 = start.scroll - dx ∧
        (touchMoveStep st start dx).2.resistanceTargetLeft = none ∧
        (touchMoveStep st start dx).2.resistanceTargetRight = none) := by
  have h125 : (1.25 : ℚ) = 5 / 4 := by norm_num
  refine ⟨?_, ?_, ?_⟩
  · intro st start a dx1 dx2 ha h1 h12 hb1 hb2
    have h2 : 0 ≤ dx2 := le_trans h1 h12
    simp only [touchMoveStep, if_pos hb1, if_pos hb2, ha, Option.getD_some,
      abs_of_nonneg h1, abs_of_nonneg h2]
    refine ⟨by rw [h125]; ring, fun hlt => ?_, by trivial⟩
    rw [h125]
    have : (dx2 - dx1) / (5 / 4) < dx2 - dx1 := by
      rw [div_lt_iff (by norm_num)]
      nlinarith
    linarith
  · intro st start a dx1 dx2 ha h21 h10 hlr hb1 hb2
    have h20 : dx2 ≤ 0 := le_trans h21 h10
    have hnb1 : ¬(start.scroll - dx1 < touchBoundLeft st) := by linarith
    have hnb2 : ¬(start.scroll - dx2 < touchBoundLeft st) := by linarith
    simp only [touchMoveStep, if_neg hnb1, if_neg hnb2, if_pos hb1,
      if_pos hb2, ha, Option.getD_some, abs_of_nonpos h10,
      abs_of_nonpos h20]
    refine ⟨by rw [h125]; ring, fun hlt => ?_, by trivial⟩
    rw [h125]
    have : (dx1 - dx2) / (5 / 4) < dx1 - dx2 := by
      rw [div_lt_iff (by norm_num)]
      nlinarith
    linarith
  · intro st start dx hl hr
    have hnb1 : ¬(start.scroll - dx < touchBoundLeft st) := not_lt.2 hl
    have hnb2 : ¬(start.scroll - dx > touchBoundRight st) := not_lt.2 hr
    simp only [touchMoveStep, if_neg hnb1, if_neg hnb2]
    exact ⟨by trivial, by trivial, by trivial⟩

/-- Witness for the amended C6: a damped left-side drag, a damped
right-side drag, and an in-bounds step that resets both anchors. -/
theorem claim_C6_amended_witness :
    ((touchMoveStep c6State ⟨0, some 10, none⟩ 15).1 -
        (touchMoveStep c6State ⟨0, some 10, none⟩ 20).1 =
          ((20 : ℚ) - 15) / 5 ∧
      ((15 : ℚ) < 20 →
        (touchMoveStep c6State ⟨0, some 10, none⟩ 15).1 -
            (touchMoveStep c6State ⟨0, some 10, none⟩ 20).1 <
          ((0 : ℚ) - 15) - ((0 : ℚ) - 20)) ∧
      (touchMoveStep c6State ⟨0, some 10, none⟩ 20).2.resistanceTargetLeft =
        some 10) ∧
    ((touchMoveStep c6State ⟨0, none, some 10⟩ (-20)).1 -
        (touchMoveStep c6State ⟨0, none, some 10⟩ (-15)).1 =
          ((-15 : ℚ) - -20) / 5 ∧
      ((-20 : ℚ) < -15 →
        (touchMoveStep c6State ⟨0, none, some 10⟩ (-20)).1 -
            (touchMoveStep c6State ⟨0, none, some 10⟩ (-15)).1 <
          ((0 : ℚ) - -20) - ((0 : ℚ) - -15)) ∧
      (touchMoveStep c6State ⟨0, none, some 10⟩ (-20)).2.resistanceTargetRight =
        some 10) ∧
    ((touchMoveStep c6State ⟨0, some 10, some 10⟩ 0).1 = (0 : ℚ) - 0 ∧
      (touchMoveStep c6State ⟨0, some 10, some 10⟩ 0).2.resistanceTargetLeft =
        none ∧
      (touchMoveStep c6State ⟨0, some 10, some 10⟩ 0).2.resistanceTargetRight =
        none) :=
  ⟨claim_C6_amended.1 c6State ⟨0, some 10, none⟩ 10 15 20 rfl
      (by norm_num) (by norm_num)
      (by norm_num [touchBoundLeft, c6State])
      (by norm_num [touchBoundLeft, c6State]),
    claim_C6_amended.2.1 c6State ⟨0, none, some 10⟩ 10 (-15) (-20) rfl
      (by norm_num) (by norm_num)
      (by norm_num [touchBoundLeft, touchBoundRight, c6State])
      (by norm_num [touchBoundRight, c6State])
      (by norm_num [touchBoundRight, c6State]),
    claim_C6_amended.2.2 c6State ⟨0, some 10, some 10⟩ 0
      (by norm_num [touchBoundLeft, c6State])
      (by norm_num [touchBoundRight, c6State])⟩

end Mvs
